import Mathlib

set_option maxRecDepth 4000

/-!
Shallow embedding of the `cortex-signal-backend` repository (`src/app.py`):
a single Flask endpoint `generate_report_endpoint` that validates a JSON
request body, builds three CrewAI task descriptions (the strategy one
branching on `plan_type`), delegates to `Crew.kickoff`, and returns the
result as JSON.  The external executor (`kickoff`) is modelled as an
explicit `Except String String` parameter: `.ok r` is a successful run
returning report `r`, `.error m` is a raised exception whose `str(e)` is
`m`.  Python values reachable from `request.get_json()` are modelled by
`PyJson`; Python `bool(x)`, `in`, subscripting and `dict.get` are each
translated, including the `TypeError` they raise on non-container values.
-/

namespace CortexSignal

/-- Values a parsed JSON request body can take, as Python objects:
`None`, booleans, numbers (integral), strings, lists and dicts
(dicts as association lists in insertion order, keys distinct). -/
inductive PyJson where
  | null
  | bool (b : Bool)
  | num (n : Int)
  | str (s : String)
  | arr (elts : List PyJson)
  | obj (items : List (String × PyJson))

/-- Python truthiness `bool(x)`: `None`, `False`, `0`, `""`, `[]`, `{ }`
are falsy, everything else truthy. -/
def PyJson.truthy : PyJson → Bool
  | .null => false
  | .bool b => b
  | .num n => n != 0
  | .str s => s != ""
  | .arr elts => !elts.isEmpty
  | .obj items => !items.isEmpty

/-- Python equality of a value against a string literal: only an equal
`str` compares equal (no other built-in type is `==` to a `str`). -/
def PyJson.eqStr : PyJson → String → Bool
  | .str t, s => t == s
  | _, _ => false

/-- First-match lookup in an association list, modelling Python dict key
access (keys of a parsed JSON object are distinct, so first match is the
dict entry). -/
def lookupStr (k : String) : List (String × PyJson) → Option PyJson
  | [] => none
  | (k', v) :: rest => if k' == k then some v else lookupStr k rest

/-- Substring test: `strContains hay needle` is the Python expression
`needle in hay` for strings. -/
def strContains (hay needle : String) : Bool :=
  decide (needle.data <:+: hay.data)

/-- Python exceptions the handler body can raise before reaching the
`try` around `kickoff` (none of them is caught by the handler). -/
inductive PyError where
  | typeError
  | keyError
  | attributeError
deriving DecidableEq

/-- Python membership `key in data`: dict key membership, list element
membership, string substring test; `TypeError` on non-container values. -/
def pyContains (key : String) : PyJson → Except PyError Bool
  | .obj items => .ok (lookupStr key items).isSome
  | .arr elts => .ok (elts.any (fun v => v.eqStr key))
  | .str s => .ok (strContains s key)
  | _ => .error .typeError

/-- Python subscript `data[key]` with a string key: dict lookup
(`KeyError` when absent), `TypeError` on every other type (list and str
subscripts require integers). -/
def pySubscript (key : String) : PyJson → Except PyError PyJson
  | .obj items =>
      match lookupStr key items with
      | some v => .ok v
      | none => .error .keyError
  | _ => .error .typeError

/-- Python `data.get(key, dflt)`: only dicts have `.get`; every other
type raises `AttributeError`. -/
def pyGet (key : String) (dflt : PyJson) : PyJson → Except PyError PyJson
  | .obj items => .ok ((lookupStr key items).getD dflt)
  | _ => .error .attributeError

mutual

/-- Python `repr` of a JSON-shaped value (string escaping inside nested
containers is abstracted away; no claim evaluates it on containers). -/
def pyRepr : PyJson → String
  | .null => "None"
  | .bool true => "True"
  | .bool false => "False"
  | .num n => toString n
  | .str s => "'" ++ s ++ "'"
  | .arr elts => "[" ++ pyReprList elts ++ "]"
  | .obj items => "\x7b" ++ pyReprItems items ++ "\x7d"

/-- Comma-joined reprs of list elements. -/
def pyReprList : List PyJson → String
  | [] => ""
  | [v] => pyRepr v
  | v :: rest => pyRepr v ++ ", " ++ pyReprList rest

/-- Comma-joined reprs of dict items. -/
def pyReprItems : List (String × PyJson) → String
  | [] => ""
  | [(k, v)] => "'" ++ k ++ "': " ++ pyRepr v
  | (k, v) :: rest => "'" ++ k ++ "': " ++ pyRepr v ++ ", " ++ pyReprItems rest

end

/-- Python `str()` as used by f-string interpolation: a string is
rendered verbatim, every other value by its repr. -/
def pyStr : PyJson → String
  | .str s => s
  | v => pyRepr v

/-- The two crewai tools instantiated at module setup. -/
inductive Tool where
  | SerperDevTool
  | WebsiteReadTool

/-- `search_tool = SerperDevTool()` from the module setup. -/
def search_tool : Tool := .SerperDevTool

/-- `website_tool = WebsiteReadTool()` from the module setup. -/
def website_tool : Tool := .WebsiteReadTool

/-- A crewai `Agent(...)` configuration as constructed in `app.py`. -/
structure Agent where
  role : String
  goal : String
  backstory : String
  verbose : Bool
  allow_delegation : Bool
  tools : List Tool

/-- Agent 1, `news_scout`, from the module setup. -/
def news_scout : Agent :=
  { role := "Lead Market Researcher"
    goal := "Find the latest news, press releases, and blog posts for a given company."
    backstory := "You are an expert market researcher, skilled at using web search tools\n      to find the most relevant, recent, and impactful news and official announcements\n      from a company's website and top-tier news outlets."
    verbose := false
    allow_delegation := false
    tools := [search_tool, website_tool] }

/-- Agent 2, `social_monitor`, from the module setup. -/
def social_monitor : Agent :=
  { role := "Social Media Analyst"
    goal := "Analyze the social media presence and customer sentiment of a given company."
    backstory := "You are a seasoned social media analyst. You know how to dig through\n      social platforms and forums like Reddit to gauge public opinion, identify marketing\n      campaigns, and find out what real people are saying."
    verbose := false
    allow_delegation := false
    tools := [search_tool] }

/-- Agent 3, `strategy_analyst`, from the module setup (no tools). -/
def strategy_analyst : Agent :=
  { role := "Senior Business Strategist"
    goal := "Synthesize research findings into a comprehensive, actionable intelligence briefing, tailored to the user's subscription plan."
    backstory := "You are a Senior Business Strategist with a talent for creating compelling reports from raw data.\n      For 'free' users, you provide a tantalizing summary to encourage upgrades.\n      For 'paid' users, you deliver the full, in-depth analysis."
    verbose := false
    allow_delegation := false
    tools := [] }

/-- Process-wide state: the tool and agent objects created once at module
setup and read by every request. -/
structure AppState where
  search_tool : Tool
  website_tool : Tool
  news_scout : Agent
  social_monitor : Agent
  strategy_analyst : Agent

/-- The state right after module setup succeeds. -/
def appInit : AppState :=
  { search_tool := search_tool
    website_tool := website_tool
    news_scout := news_scout
    social_monitor := social_monitor
    strategy_analyst := strategy_analyst }

/-- A crewai `Task(...)`: description, expected output, assigned agent,
and context tasks (empty when the `context` argument is omitted). -/
inductive CrewTask where
  | mk (description : String) (expected_output : String) (agent : Agent)
       (context : List CrewTask)

/-- Description field of a task. -/
def CrewTask.description : CrewTask → String
  | .mk d _ _ _ => d

/-- Expected-output field of a task. -/
def CrewTask.expected_output : CrewTask → String
  | .mk _ e _ _ => e

/-- Agent field of a task. -/
def CrewTask.agent : CrewTask → Agent
  | .mk _ _ a _ => a

/-- Context field of a task. -/
def CrewTask.context : CrewTask → List CrewTask
  | .mk _ _ _ c => c

/-- crewai `Process` values used by the app. -/
inductive Process where
  | sequential
  | hierarchical

/-- A crewai `Crew(...)` as assembled in the handler. -/
structure Crew where
  agents : List Agent
  tasks : List CrewTask
  process : Process
  verbose : Bool

/-- Fixed text of the news task description before the interpolated
company name. -/
def news_description_pre : String :=
  "Search for and analyze the latest news, blog posts, and press releases for the company: "

/-- Fixed text of the news task description after the interpolated
company name. -/
def news_description_post : String :=
  ". Focus on the last 3-6 months. Summarize key product launches, leadership changes, and financial news."

/-- The f-string of `news_task`'s description. -/
def news_task_description (competitor_company : String) : String :=
  news_description_pre ++ competitor_company ++ news_description_post

/-- Expected output of `news_task`. -/
def news_expected_output : String :=
  "A bullet-point summary of the top 3-5 most important news items and announcements."

/-- Fixed text of the social task description before the interpolated
company name. -/
def social_description_pre : String :=
  "Analyze the social media presence of "

/-- Fixed text of the social task description after the interpolated
company name. -/
def social_description_post : String :=
  ". Search for discussions on Reddit and Twitter. Identify their main marketing messages and summarize the overall public sentiment (positive, negative, neutral)."

/-- The f-string of `social_task`'s description. -/
def social_task_description (competitor_company : String) : String :=
  social_description_pre ++ competitor_company ++ social_description_post

/-- Expected output of `social_task`. -/
def social_expected_output : String :=
  "A summary of the company's social media strategy and a paragraph describing customer sentiment with examples."

/-- Fixed text of the paid-plan strategy description before the
interpolated company name (leading newline and 8-space indentation as in
the triple-quoted f-string). -/
def strategy_paid_pre : String :=
  "\n        Using the provided news analysis and social media sentiment for "

/-- Fixed text of the paid-plan strategy description after the
interpolated company name. -/
def strategy_paid_post : String :=
  ", compile a COMPLETE and IN-DEPTH competitor intelligence report.\n        The report MUST have the following sections, each fully detailed:\n        1.  **Key Announcements:** Full details of recent news.\n        2.  **Social Media & Customer Voice:** Deep dive into their strategy and customer feedback.\n        3.  **SWOT Analysis:** A full Strengths, Weaknesses, Opportunities, and Threats analysis based on all data.\n        4.  **Content Strategy Angles:** Suggest 3-5 specific content ideas or keywords the user can target.\n        "

/-- Fixed text of the free-plan strategy description before the
interpolated company name. -/
def strategy_free_pre : String :=
  "\n        Using the provided news analysis and social media sentiment for "

/-- Fixed text of the free-plan strategy description after the
interpolated company name; it embeds the locked-feature upsell text. -/
def strategy_free_post : String :=
  ", compile a \"teaser\" competitor intelligence report.\n        The report MUST have the following structure:\n        1.  **Key Announcements:** Provide the headlines of the top 2 news items, but only a one-sentence summary for each.\n        2.  **Social Media & Customer Voice:** Give a one-sentence overview of their social strategy and the general sentiment (e.g., \"Generally positive\").\n        3.  **Premium Features Locked:** Create sections titled \"SWOT Analysis\" and \"Content Strategy Angles\" but under each, write: 'Upgrade to a paid plan to unlock this in-depth analysis.'\n        "

/-- The locked-feature upsell sentence. -/
def upsell_text : String :=
  "Upgrade to a paid plan to unlock this in-depth analysis."

/-- The `strategy_task_description` local variable: branches on
`plan_type == 'paid'`. -/
def strategy_task_description (competitor_company : String) (plan_type : PyJson) : String :=
  if plan_type.eqStr "paid" then
    strategy_paid_pre ++ competitor_company ++ strategy_paid_post
  else
    strategy_free_pre ++ competitor_company ++ strategy_free_post

/-- The `expected_output_format` local variable: branches on
`plan_type == 'paid'`. -/
def expected_output_format (plan_type : PyJson) : String :=
  if plan_type.eqStr "paid" then
    "A well-formatted, professional intelligence report using markdown. Provide full, unrestricted details in all sections."
  else
    "A well-formatted \"teaser\" report using markdown. It should give a taste of the value while clearly indicating that more is available in the paid version."

/-- `news_task = Task(...)` built per request. -/
def news_task (st : AppState) (competitor_company : String) : CrewTask :=
  .mk (news_task_description competitor_company) news_expected_output st.news_scout []

/-- `social_task = Task(...)` built per request. -/
def social_task (st : AppState) (competitor_company : String) : CrewTask :=
  .mk (social_task_description competitor_company) social_expected_output st.social_monitor []

/-- `strategy_task = Task(...)` built per request, with
`context=[news_task, social_task]`. -/
def strategy_task (st : AppState) (competitor_company : String) (plan_type : PyJson) : CrewTask :=
  .mk (strategy_task_description competitor_company plan_type)
      (expected_output_format plan_type)
      st.strategy_analyst
      [news_task st competitor_company, social_task st competitor_company]

/-- `competitor_crew = Crew(...)` assembled per request. -/
def competitor_crew (st : AppState) (competitor_company : String) (plan_type : PyJson) : Crew :=
  { agents := [st.news_scout, st.social_monitor, st.strategy_analyst]
    tasks := [news_task st competitor_company, social_task st competitor_company,
              strategy_task st competitor_company plan_type]
    process := .sequential
    verbose := false }

/-- Error message returned when the API key is absent. -/
def gemini_key_missing_message : String :=
  "Gemini API key not found. Please set it in the environment variables."

/-- Error message returned when `company_name` is missing. -/
def missing_company_message : String :=
  "Missing 'company_name' in request body"

/-- Error message returned when `kickoff` raises, wrapping `str(e)`. -/
def kickoff_error_message (m : String) : String :=
  "An error occurred while generating the report: " ++ m

/-- The body `jsonify({"error": m})`. -/
def errorBody (m : String) : PyJson :=
  .obj [("error", .str m)]

/-- Truthiness of `os.getenv('GEMINI_API_KEY')`: `none` when the variable
is unset, and the empty string is falsy. -/
def envTruthy : Option String → Bool
  | none => false
  | some s => s != ""

/-- Outcome of one request: either a `(status, json-body)` response, or
an uncaught Python exception; `kicked` records the crew handed to
`kickoff`, `none` when the executor was never invoked. -/
structure HandlerOutcome where
  response : Except PyError (Nat × PyJson)
  kicked : Option Crew

/-- The body of `generate_report_endpoint`, translated statement by
statement from `app.py` lines 68-148.  `body` is the value of
`request.get_json()` (`none` when it yields `None`), and `kick` the
outcome of `competitor_crew.kickoff()`. -/
def generate_report_outcome (st : AppState) (gemini_api_key : Option String)
    (body : Option PyJson) (kick : Except String String) : HandlerOutcome :=
  if !envTruthy gemini_api_key then
    ⟨.ok (500, errorBody gemini_key_missing_message), none⟩
  else
    match body with
    | none => ⟨.ok (400, errorBody missing_company_message), none⟩
    | some data =>
      if !data.truthy then
        ⟨.ok (400, errorBody missing_company_message), none⟩
      else
        match pyContains "company_name" data with
        | .error e => ⟨.error e, none⟩
        | .ok mem =>
          if !mem then
            ⟨.ok (400, errorBody missing_company_message), none⟩
          else
            match pySubscript "company_name" data with
            | .error e => ⟨.error e, none⟩
            | .ok companyVal =>
              match pyGet "plan_type" (.str "free") data with
              | .error e => ⟨.error e, none⟩
              | .ok plan_type =>
                let crew := competitor_crew st (pyStr companyVal) plan_type
                match kick with
                | .ok report =>
                    ⟨.ok (200, .obj [("report", .str report)]), some crew⟩
                | .error e =>
                    ⟨.ok (500, errorBody (kickoff_error_message e)), some crew⟩

/-- The endpoint as a state transformer: the handler assigns no global,
so the outgoing process state is the incoming one. -/
def generate_report_endpoint (st : AppState) (gemini_api_key : Option String)
    (body : Option PyJson) (kick : Except String String) : AppState × HandlerOutcome :=
  (st, generate_report_outcome st gemini_api_key body kick)

/-- One request handled at the startup state. -/
def runHandler (gemini_api_key : Option String) (body : Option PyJson)
    (kick : Except String String) : HandlerOutcome :=
  (generate_report_endpoint appInit gemini_api_key body kick).2

/-- One inbound request: environment value, parsed body, executor outcome. -/
abbrev Request := Option String × Option PyJson × Except String String

/-- A whole sequence of requests handled one after the other, threading
the process-wide state through. -/
def handleRequests (st : AppState) : List Request → AppState × List HandlerOutcome
  | [] => (st, [])
  | r :: rest =>
      let p := generate_report_endpoint st r.1 r.2.1 r.2.2
      let q := handleRequests p.1 rest
      (q.1, p.2 :: q.2)

/-- Lookup distributes over list append, preferring the left list. -/
theorem lookupStr_append (k : String) (l₁ l₂ : List (String × PyJson)) :
    lookupStr k (l₁ ++ l₂) = (lookupStr k l₁).or (lookupStr k l₂) := by
  induction l₁ with
  | nil => simp [lookupStr, Option.or]
  | cons p rest ih =>
      cases p with
      | mk k' v =>
          by_cases h : (k' == k) = true
          · simp [lookupStr, h, Option.or]
          · simp [lookupStr, h, ih]

/-- A dict with a bound key is nonempty, hence truthy. -/
theorem truthy_of_lookupStr_some {k : String} {items : List (String × PyJson)}
    {v : PyJson} (h : lookupStr k items = some v) :
    (PyJson.obj items).truthy = true := by
  cases items with
  | nil => simp [lookupStr] at h
  | cons p rest => simp [PyJson.truthy, List.isEmpty]

/-- Every handler outcome either never reached the executor, or carries
a crew and a response fully determined by the executor outcome. -/
theorem outcome_kicked_shape (st : AppState) (key : Option String)
    (body : Option PyJson) (kick : Except String String) :
    (generate_report_outcome st key body kick).kicked = none ∨
    ∃ crew, generate_report_outcome st key body kick =
      ⟨match kick with
        | .ok r => .ok (200, .obj [("report", .str r)])
        | .error e => .ok (500, errorBody (kickoff_error_message e)),
       some crew⟩ := by
  unfold generate_report_outcome
  repeat' split
  all_goals first
    | exact Or.inl rfl
    | exact Or.inr ⟨_, rfl⟩

/-- Shared helper: a falsy credential short-circuits to the 500
configuration error. -/
theorem outcome_no_key (st : AppState) (key : Option String)
    (body : Option PyJson) (kick : Except String String)
    (h : envTruthy key = false) :
    generate_report_outcome st key body kick =
      ⟨.ok (500, errorBody gemini_key_missing_message), none⟩ := by
  simp [generate_report_outcome, h]

/-- Shared helper: absent, falsy, or company-less object bodies get the
400 response without reaching the executor. -/
theorem outcome_missing_company (st : AppState) (key : Option String)
    (body : Option PyJson) (kick : Except String String)
    (hkey : envTruthy key = true)
    (hbody : body = none ∨ ∃ j, body = some j ∧
      (j.truthy = false ∨ ∃ items, j = PyJson.obj items ∧
        lookupStr "company_name" items = none)) :
    generate_report_outcome st key body kick =
      ⟨.ok (400, errorBody missing_company_message), none⟩ := by
  rcases hbody with h | ⟨j, hj, hcase⟩
  · subst h
    simp [generate_report_outcome, hkey]
  · subst hj
    rcases hcase with hf | ⟨items, hobj, hnone⟩
    · simp [generate_report_outcome, hkey, hf]
    · subst hobj
      cases ht : (PyJson.obj items).truthy with
      | false => simp [generate_report_outcome, hkey, ht]
      | true => simp [generate_report_outcome, hkey, ht, pyContains, hnone]

/-- Shared helper: with the credential present and an object body binding
company_name to v, the handler builds the crew for str(v) and the plan
looked up with default "free", hands it to the executor, and answers 200
with the report on success or the wrapped 500 on exception. -/
theorem outcome_valid (st : AppState) (key : Option String)
    (items : List (String × PyJson)) (v : PyJson) (kick : Except String String)
    (hkey : envTruthy key = true)
    (hc : lookupStr "company_name" items = some v) :
    generate_report_outcome st key (some (PyJson.obj items)) kick =
      ⟨match kick with
        | .ok r => .ok (200, PyJson.obj [("report", PyJson.str r)])
        | .error e => .ok (500, errorBody (kickoff_error_message e)),
       some (competitor_crew st (pyStr v)
          ((lookupStr "plan_type" items).getD (PyJson.str "free")))⟩ := by
  have ht := truthy_of_lookupStr_some hc
  simp [generate_report_outcome, hkey, ht, pyContains, pySubscript, pyGet, hc]
  cases kick <;> rfl

/-- C3: when the GEMINI_API_KEY environment variable is unset or empty,
the handler returns 500 with the key-not-found message, whatever the
request body is (the credential check precedes body validation), and the
executor is never invoked. -/
theorem missing_api_key_yields_500 (st : AppState) (key : Option String)
    (body : Option PyJson) (kick : Except String String)
    (h : envTruthy key = false) :
    generate_report_outcome st key body kick =
      ⟨.ok (500, errorBody gemini_key_missing_message), none⟩ :=
  outcome_no_key st key body kick h

/-- Witness for C3: the key unset and a body with no company_name still
produce the 500 configuration error, not a 400. -/
theorem missing_api_key_yields_500_witness :
    envTruthy none = false ∧
    generate_report_outcome appInit none (some (PyJson.obj [])) (.ok "r") =
      ⟨.ok (500, errorBody gemini_key_missing_message), none⟩ :=
  ⟨rfl, missing_api_key_yields_500 appInit none (some (PyJson.obj [])) (.ok "r") rfl⟩

/-- C2: with the credential present, a body that is absent, falsy
(empty), or an object without the key company_name yields exactly status
400 with body error = "Missing 'company_name' in request body", and the
executor is never invoked. -/
theorem missing_company_name_yields_400 (st : AppState) (key : Option String)
    (body : Option PyJson) (kick : Except String String)
    (hkey : envTruthy key = true)
    (hbody : body = none ∨ ∃ j, body = some j ∧
      (j.truthy = false ∨ ∃ items, j = PyJson.obj items ∧
        lookupStr "company_name" items = none)) :
    generate_report_outcome st key body kick =
      ⟨.ok (400, errorBody missing_company_message), none⟩ :=
  outcome_missing_company st key body kick hkey hbody

/-- Witness for C2: an object body carrying only plan_type gets the
exact 400 response and no executor call. -/
theorem missing_company_name_yields_400_witness :
    envTruthy (some "key") = true ∧
    generate_report_outcome appInit (some "key")
        (some (PyJson.obj [("plan_type", PyJson.str "paid")])) (.ok "r") =
      ⟨.ok (400, errorBody missing_company_message), none⟩ :=
  ⟨rfl, missing_company_name_yields_400 appInit (some "key") _ (.ok "r") rfl
    (Or.inr ⟨_, rfl, Or.inr ⟨_, rfl, rfl⟩⟩)⟩

/-- C4: whenever a request reaches the executor and kickoff raises an
exception with message m, the handler returns 500 with exactly the
message "An error occurred while generating the report: " ++ m. -/
theorem kickoff_exception_yields_500 (st : AppState) (key : Option String)
    (body : Option PyJson) (m : String)
    (hk : (generate_report_outcome st key body (.error m)).kicked.isSome = true) :
    (generate_report_outcome st key body (.error m)).response =
      .ok (500, errorBody (kickoff_error_message m)) := by
  rcases outcome_kicked_shape st key body (.error m) with h | ⟨crew, h⟩
  · rw [h] at hk
    simp at hk
  · rw [h]

/-- Witness for C4: a fully valid request whose kickoff raises "boom"
returns the 500 with the prefixed message. -/
theorem kickoff_exception_yields_500_witness :
    (generate_report_outcome appInit (some "key")
        (some (PyJson.obj [("company_name", PyJson.str "Acme")])) (.error "boom")).kicked.isSome = true ∧
    (generate_report_outcome appInit (some "key")
        (some (PyJson.obj [("company_name", PyJson.str "Acme")])) (.error "boom")).response =
      .ok (500, errorBody (kickoff_error_message "boom")) :=
  ⟨rfl, kickoff_exception_yields_500 appInit (some "key")
    (some (PyJson.obj [("company_name", PyJson.str "Acme")])) "boom" rfl⟩

/-- C10: the well-formed JSON array body ["company_name"] passes the
truthiness and membership checks, and the subscript data["company_name"]
then raises an uncaught TypeError: the handler terminates with an
exception, producing none of the specified JSON error responses and
never invoking the executor. -/
theorem array_body_uncaught_type_error :
    runHandler (some "key") (some (PyJson.arr [PyJson.str "company_name"])) (.ok "r") =
      ⟨.error PyError.typeError, none⟩ := rfl

/-- Shared helper: at the outcome level, omitting plan_type behaves as
plan_type = "free". -/
theorem outcome_omitted_plan (st : AppState) (key : Option String)
    (kick : Except String String) (items : List (String × PyJson))
    (h : lookupStr "plan_type" items = none) :
    generate_report_outcome st key (some (PyJson.obj items)) kick =
      generate_report_outcome st key
        (some (PyJson.obj (items ++ [("plan_type", PyJson.str "free")]))) kick := by
  cases hkey : envTruthy key with
  | false => rw [outcome_no_key _ _ _ _ hkey, outcome_no_key _ _ _ _ hkey]
  | true =>
    cases hc : lookupStr "company_name" items with
    | none =>
      have hc2 : lookupStr "company_name" (items ++ [("plan_type", PyJson.str "free")]) = none := by
        rw [lookupStr_append, hc]; rfl
      rw [outcome_missing_company st key _ kick hkey (Or.inr ⟨_, rfl, Or.inr ⟨_, rfl, hc⟩⟩),
          outcome_missing_company st key _ kick hkey (Or.inr ⟨_, rfl, Or.inr ⟨_, rfl, hc2⟩⟩)]
    | some v =>
      have hc2 : lookupStr "company_name" (items ++ [("plan_type", PyJson.str "free")]) = some v := by
        rw [lookupStr_append, hc]; rfl
      have hp2 : lookupStr "plan_type" (items ++ [("plan_type", PyJson.str "free")]) =
          some (PyJson.str "free") := by
        rw [lookupStr_append, h]; rfl
      rw [outcome_valid st key items v kick hkey hc,
          outcome_valid st key _ v kick hkey hc2, h, hp2]
      rfl

/-- C5: a body that omits plan_type produces exactly the same handler
behavior (state, response and crew included) as the identical body with
plan_type set to the string "free". -/
theorem omitted_plan_type_defaults_to_free (st : AppState) (key : Option String)
    (kick : Except String String) (items : List (String × PyJson))
    (h : lookupStr "plan_type" items = none) :
    generate_report_endpoint st key (some (PyJson.obj items)) kick =
      generate_report_endpoint st key
        (some (PyJson.obj (items ++ [("plan_type", PyJson.str "free")]))) kick := by
  unfold generate_report_endpoint
  rw [outcome_omitted_plan st key kick items h]

/-- Witness for C5 at a concrete body holding only company_name. -/
theorem omitted_plan_type_defaults_to_free_witness :
    lookupStr "plan_type" [("company_name", PyJson.str "Acme")] = none ∧
    generate_report_endpoint appInit (some "key")
        (some (PyJson.obj [("company_name", PyJson.str "Acme")])) (.ok "r") =
      generate_report_endpoint appInit (some "key")
        (some (PyJson.obj [("company_name", PyJson.str "Acme"),
                           ("plan_type", PyJson.str "free")])) (.ok "r") :=
  ⟨rfl, omitted_plan_type_defaults_to_free appInit (some "key") (.ok "r")
    [("company_name", PyJson.str "Acme")] rfl⟩

/-- C6: a valid request (credential set, company_name bound in an object
body) assembles the crew with the three tasks in order news, social,
strategy, the strategy task having exactly the news and social tasks as
context, runs it sequentially, and on success returns 200 with the
executor output unchanged under the "report" key. -/
theorem valid_request_sequential_crew (st : AppState) (key : Option String)
    (items : List (String × PyJson)) (v : PyJson) (r : String)
    (hkey : envTruthy key = true)
    (hc : lookupStr "company_name" items = some v) :
    generate_report_outcome st key (some (PyJson.obj items)) (.ok r) =
      ⟨.ok (200, PyJson.obj [("report", PyJson.str r)]),
       some (competitor_crew st (pyStr v)
          ((lookupStr "plan_type" items).getD (PyJson.str "free")))⟩ ∧
    (competitor_crew st (pyStr v)
        ((lookupStr "plan_type" items).getD (PyJson.str "free"))).tasks =
      [news_task st (pyStr v), social_task st (pyStr v),
       strategy_task st (pyStr v) ((lookupStr "plan_type" items).getD (PyJson.str "free"))] ∧
    (strategy_task st (pyStr v)
        ((lookupStr "plan_type" items).getD (PyJson.str "free"))).context =
      [news_task st (pyStr v), social_task st (pyStr v)] ∧
    (competitor_crew st (pyStr v)
        ((lookupStr "plan_type" items).getD (PyJson.str "free"))).process = .sequential :=
  ⟨outcome_valid st key items v (.ok r) hkey hc, rfl, rfl, rfl⟩

/-- Witness for C6 at a concrete valid request. -/
theorem valid_request_sequential_crew_witness :
    envTruthy (some "key") = true ∧
    lookupStr "company_name" [("company_name", PyJson.str "Acme")] = some (PyJson.str "Acme") ∧
    generate_report_outcome appInit (some "key")
        (some (PyJson.obj [("company_name", PyJson.str "Acme")])) (.ok "the report") =
      ⟨.ok (200, PyJson.obj [("report", PyJson.str "the report")]),
       some (competitor_crew appInit (pyStr (PyJson.str "Acme"))
          ((lookupStr "plan_type" [("company_name", PyJson.str "Acme")]).getD (PyJson.str "free")))⟩ :=
  ⟨rfl, rfl, (valid_request_sequential_crew appInit (some "key")
    [("company_name", PyJson.str "Acme")] (PyJson.str "Acme") "the report" rfl rfl).1⟩

/-- C7 counterexample: a body binding company_name to the empty string is
not rejected: the handler answers 200 and invokes the executor with the
empty string interpolated into the prompts. -/
theorem empty_company_name_counterexample :
    runHandler (some "key") (some (PyJson.obj [("company_name", PyJson.str "")])) (.ok "r") =
      ⟨.ok (200, PyJson.obj [("report", PyJson.str "r")]),
       some (competitor_crew appInit "" (PyJson.str "free"))⟩ := rfl

/-- C7 amended: only presence of the company_name key is validated; a
request binding it to the empty string passes validation, builds the
crew for the empty company string, reaches the executor, and is not
answered with the 400 client error. -/
theorem empty_company_name_accepted (st : AppState) (key : Option String)
    (items : List (String × PyJson)) (kick : Except String String)
    (hkey : envTruthy key = true)
    (hc : lookupStr "company_name" items = some (PyJson.str "")) :
    (generate_report_outcome st key (some (PyJson.obj items)) kick).kicked =
      some (competitor_crew st ""
        ((lookupStr "plan_type" items).getD (PyJson.str "free"))) ∧
    (generate_report_outcome st key (some (PyJson.obj items)) kick).response ≠
      .ok (400, errorBody missing_company_message) := by
  rw [outcome_valid st key items (PyJson.str "") kick hkey hc]
  refine ⟨rfl, ?_⟩
  cases kick <;> simp [errorBody, kickoff_error_message]

/-- Witness for the amended C7 at a concrete input. -/
theorem empty_company_name_accepted_witness :
    (generate_report_outcome appInit (some "key")
        (some (PyJson.obj [("company_name", PyJson.str "")])) (.ok "r")).kicked =
      some (competitor_crew appInit ""
        ((lookupStr "plan_type" [("company_name", PyJson.str "")]).getD (PyJson.str "free"))) ∧
    (generate_report_outcome appInit (some "key")
        (some (PyJson.obj [("company_name", PyJson.str "")])) (.ok "r")).response ≠
      .ok (400, errorBody missing_company_message) :=
  empty_company_name_accepted appInit (some "key")
    [("company_name", PyJson.str "")] (.ok "r") rfl rfl

/-- C8: handling any sequence of requests leaves the process-wide state
(the startup tool and agent objects) unchanged, and every response is
exactly the response of handling that request alone from the startup
state: nothing written during one request is observable by a later one. -/
theorem handler_leaves_state_unchanged (st : AppState) (reqs : List Request) :
    handleRequests st reqs =
      (st, reqs.map (fun r => (generate_report_endpoint st r.1 r.2.1 r.2.2).2)) := by
  induction reqs with
  | nil => rfl
  | cons r rest ih =>
      simp only [handleRequests, generate_report_endpoint, List.map, ih]

/-- A string is a substring of any sandwich around it. -/
theorem contains_middle (a c b : String) : strContains (a ++ c ++ b) c = true := by
  apply decide_eq_true
  simp only [String.data_append]
  exact List.infix_append _ _ _

/-- A substring of the right part is a substring of the sandwich. -/
theorem strContains_append_right (a c b needle : String)
    (h : strContains b needle = true) :
    strContains (a ++ c ++ b) needle = true := by
  apply decide_eq_true
  have hb := of_decide_eq_true h
  have hsuf : b.data <:+ (a ++ c ++ b).data := by
    simp only [String.data_append]
    exact List.suffix_append _ _
  exact hb.trans ( List.IsSuffix.isInfix hsuf)

/-- Decomposition of an infix of an append: the infix lies inside the
left part, inside the right part, or straddles the junction, split at
some interior position k. -/
theorem infix_append_cases {α : Type} {l xs ys : List α} (h : l <:+: xs ++ ys) :
    l <:+: xs ∨ l <:+: ys ∨
    ∃ k, 0 < k ∧ k < l.length ∧ l.take k <:+ xs ∧ l.drop k <+: ys := by
  obtain ⟨a, b, hab⟩ := h
  rw [List.append_assoc] at hab
  rcases List.append_eq_append_iff.mp hab with ⟨w, hw1, hw2⟩ | ⟨u, hu1, hu2⟩
  · -- xs = a ++ w and l ++ b = w ++ ys
    rcases List.append_eq_append_iff.mp hw2 with ⟨s, hs1, hs2⟩ | ⟨t, ht1, ht2⟩
    · -- w = l ++ s : l is an infix of xs
      left
      exact ⟨a, s, by rw [hw1, hs1, List.append_assoc]⟩
    · -- l = w ++ t and ys = t ++ b
      by_cases hw0 : w = []
      · subst hw0
        right; left
        exact ( List.IsPrefix.isInfix ⟨b, by simp [ht2, ht1]⟩)
      · by_cases ht0 : t = []
        · subst ht0
          left
          refine ( List.IsSuffix.isInfix ?_)
          have hlw : l = w := by rw [ht1, List.append_nil]
          rw [hlw, hw1]
          exact List.suffix_append a w
        · right; right
          refine ⟨w.length, ?_, ?_, ?_, ?_⟩
          · cases w with
            | nil => exact absurd rfl hw0
            | cons x xs => simp
          · rw [ht1, List.length_append]
            cases t with
            | nil => exact absurd rfl ht0
            | cons y ys => simp
          · rw [ht1, List.take_left, hw1]
            exact List.suffix_append a w
          · rw [ht1, List.drop_left, ht2]
            exact List.prefix_append t b
  · -- a = xs ++ u and ys = u ++ (l ++ b) : l is an infix of ys
    right; left
    exact ⟨u, b, by rw [hu2, List.append_assoc]⟩

/-- No occurrence of a needle in a sandwich A ++ (c ++ B): neither inside
any part, nor straddling a junction (the junction conditions are phrased
on splits of the needle, so they are decidable for concrete A, B). -/
theorem not_infix_of_sandwich {α : Type} {needle A B c : List α}
    (hA : ¬ needle <:+: A) (hB : ¬ needle <:+: B) (hc : ¬ needle <:+: c)
    (hL : ∀ k, 0 < k → k < needle.length → ¬ needle.take k <:+ A)
    (hR : ∀ k, 0 < k → k < needle.length → ¬ needle.drop k <+: B) :
    ¬ needle <:+: A ++ (c ++ B) := by
  intro h
  rcases infix_append_cases h with h1 | h2 | ⟨k, hk0, hklen, hsuf, _⟩
  · exact hA h1
  · rcases infix_append_cases h2 with g1 | g2 | ⟨k, hk0, hklen, _, gdrop⟩
    · exact hc g1
    · exact hB g2
    · exact hR k hk0 hklen gdrop
  · exact hL k hk0 hklen hsuf

/-- Bridge from a decided bounded check to a bounded universal fact. -/
theorem forall_lt_of_range_all {p : Nat → Prop} [DecidablePred p] {n : Nat}
    (h : (List.range n).all (fun k => decide (p k)) = true) :
    ∀ k, k < n → p k := fun k hk =>
  of_decide_eq_true (List.all_eq_true.mp h k (List.mem_range.mpr hk))

/-- Shared helper: the fixed paid-plan template pieces contain no
occurrence of the upsell text, not even one straddling a junction with
the interpolated company name, so the paid strategy description contains
the upsell text only when the company name itself does. -/
theorem paid_description_no_upsell (company : String)
    (hco : strContains company upsell_text = false) :
    strContains (strategy_paid_pre ++ company ++ strategy_paid_post) upsell_text = false := by
  apply decide_eq_false
  intro h
  rw [String.data_append, String.data_append, List.append_assoc] at h
  refine not_infix_of_sandwich ?_ ?_ (of_decide_eq_false hco) ?_ ?_ h
  · decide
  · decide
  · intro k hk0 hklen
    have hall : ∀ k, k < upsell_text.data.length →
        (k = 0 ∨ ¬ upsell_text.data.take k <:+ strategy_paid_pre.data) :=
      forall_lt_of_range_all (by decide)
    rcases hall k hklen with h0 | hn
    · omega
    · exact hn
  · intro k hk0 hklen
    have hall : ∀ k, k < upsell_text.data.length →
        (k = 0 ∨ ¬ upsell_text.data.drop k <+: strategy_paid_post.data) :=
      forall_lt_of_range_all (by decide)
    rcases hall k hklen with h0 | hn
    · omega
    · exact hn

/-- C9: the prompt strings are pure functions of exactly the pair
(company_name, plan_type) — two handled requests agreeing on those two
body fields hand identical crews (hence character-identical task
descriptions and expected outputs) to the executor — and the company
name string is interpolated verbatim, with no sanitization or length
limit, into each of the three task descriptions. -/
theorem prompts_deterministic_and_verbatim :
    (∀ (st : AppState) (key₁ key₂ : Option String)
       (items₁ items₂ : List (String × PyJson)) (kick₁ kick₂ : Except String String),
       envTruthy key₁ = true → envTruthy key₂ = true →
       lookupStr "company_name" items₁ = lookupStr "company_name" items₂ →
       lookupStr "plan_type" items₁ = lookupStr "plan_type" items₂ →
       (generate_report_outcome st key₁ (some (PyJson.obj items₁)) kick₁).kicked =
         (generate_report_outcome st key₂ (some (PyJson.obj items₂)) kick₂).kicked) ∧
    (∀ (company : String) (plan : PyJson),
       strContains (news_task_description company) company = true ∧
       strContains (social_task_description company) company = true ∧
       strContains (strategy_task_description company plan) company = true) := by
  constructor
  · intro st key₁ key₂ items₁ items₂ kick₁ kick₂ h₁ h₂ hcomp hplan
    cases hc : lookupStr "company_name" items₁ with
    | none =>
        have hc₂ : lookupStr "company_name" items₂ = none := by rw [← hcomp, hc]
        rw [outcome_missing_company st key₁ _ kick₁ h₁ (Or.inr ⟨_, rfl, Or.inr ⟨_, rfl, hc⟩⟩),
            outcome_missing_company st key₂ _ kick₂ h₂ (Or.inr ⟨_, rfl, Or.inr ⟨_, rfl, hc₂⟩⟩)]
    | some v =>
        have hc₂ : lookupStr "company_name" items₂ = some v := by rw [← hcomp, hc]
        rw [outcome_valid st key₁ items₁ v kick₁ h₁ hc,
            outcome_valid st key₂ items₂ v kick₂ h₂ hc₂, hplan]
  · intro company plan
    refine ⟨contains_middle _ _ _, contains_middle _ _ _, ?_⟩
    unfold strategy_task_description
    cases hp : plan.eqStr "paid" with
    | false => simp only [hp, Bool.false_eq_true, if_false]; exact contains_middle _ _ _
    | true => simp only [hp, if_true]; exact contains_middle _ _ _

/-- Witness for C9: two different requests agreeing on company_name and
plan_type hand the same crew to the executor, and the company name is a
substring of the news prompt. -/
theorem prompts_deterministic_and_verbatim_witness :
    (generate_report_outcome appInit (some "k1")
        (some (PyJson.obj [("company_name", PyJson.str "Acme")])) (.ok "a")).kicked =
      (generate_report_outcome appInit (some "k2")
        (some (PyJson.obj [("company_name", PyJson.str "Acme"), ("extra", PyJson.null)]))
        (.error "b")).kicked ∧
    strContains (news_task_description "Acme") "Acme" = true :=
  ⟨prompts_deterministic_and_verbatim.1 appInit (some "k1") (some "k2")
      [("company_name", PyJson.str "Acme")]
      [("company_name", PyJson.str "Acme"), ("extra", PyJson.null)]
      (.ok "a") (.error "b") rfl rfl rfl rfl,
   (prompts_deterministic_and_verbatim.2 "Acme" (PyJson.str "free")).1⟩

/-- C1 counterexample: with the credential present, a body containing
company_name (bound to the upsell sentence itself) and plan_type "paid",
the handler reaches the executor and the paid strategy description does
contain the upsell text — refuting the claim that for plan "paid" the
synthesis description contains no upsell text. -/
theorem paid_prompt_upsell_counterexample :
    (runHandler (some "key")
        (some (PyJson.obj [("company_name", PyJson.str upsell_text),
                           ("plan_type", PyJson.str "paid")])) (.ok "r")).kicked =
      some (competitor_crew appInit upsell_text (PyJson.str "paid")) ∧
    strContains (strategy_task_description upsell_text (PyJson.str "paid")) upsell_text = true := by
  constructor
  · rfl
  · decide

/-- C1 amended: when plan_type equals the string "paid" the synthesis
description requests the full SWOT Analysis and Content Strategy Angles
sections and contains the upsell text only if the company_name itself
contains it; for every other plan_type value (including "free", "Paid",
or any non-string) it contains the locked-feature upsell text. -/
theorem plan_gates_strategy_prompt (company : String) (plan : PyJson) :
    (plan.eqStr "paid" = true →
       strContains (strategy_task_description company plan) "SWOT Analysis" = true ∧
       strContains (strategy_task_description company plan) "Content Strategy Angles" = true ∧
       (strContains company upsell_text = false →
         strContains (strategy_task_description company plan) upsell_text = false)) ∧
    (plan.eqStr "paid" = false →
       strContains (strategy_task_description company plan) upsell_text = true) := by
  constructor
  · intro hp
    unfold strategy_task_description
    simp only [hp, if_true]
    refine ⟨strContains_append_right _ _ _ _ (by decide),
            strContains_append_right _ _ _ _ (by decide), ?_⟩
    intro hco
    exact paid_description_no_upsell company hco
  · intro hp
    unfold strategy_task_description
    simp only [hp, Bool.false_eq_true, if_false]
    exact strContains_append_right _ _ _ _ (by decide)

/-- Witness for the amended C1: for company "Acme", the paid prompt has
both premium sections and no upsell text, while plan "Paid" (a case
variant) still gets the upsell text. -/
theorem plan_gates_strategy_prompt_witness :
    (strContains (strategy_task_description "Acme" (PyJson.str "paid")) "SWOT Analysis" = true ∧
     strContains (strategy_task_description "Acme" (PyJson.str "paid")) "Content Strategy Angles" = true ∧
     strContains (strategy_task_description "Acme" (PyJson.str "paid")) upsell_text = false) ∧
    strContains (strategy_task_description "Acme" (PyJson.str "Paid")) upsell_text = true := by
  refine ⟨?_, ?_⟩
  · have h := (plan_gates_strategy_prompt "Acme" (PyJson.str "paid")).1 rfl
    exact ⟨h.1, h.2.1, h.2.2 (by decide)⟩
  · exact (plan_gates_strategy_prompt "Acme" (PyJson.str "Paid")).2 rfl

end CortexSignal
